import Mathlib

set_option maxRecDepth 4000

/-!
Shallow embedding of the PyGEM GCM bias-adjustment preprocessing script
(src/run_gcmbiasadj_list_multiprocess_v2.py, option_bias_adjustment = 1)
under the configuration of src/pygem_input_spc.py (option_temp2bins = 1,
option_prec2bins = 1, option_preclimit = 1, option_accumulation = 2,
option_elev_ref_downscale = 'Zmed').

Numeric arrays are modelled over ℚ.  The external exponential `np.exp` is a
function parameter `expf`; the external SLSQP optimizer and the external
mass-balance engine (`massbalance.runmassbalance`) are collaborators and enter
only through their results (the abstract `solveGlacier` branch and the stage-1
offset `badj`).
-/

namespace PyGEM

/-- Calibrated model parameters of one glacier: the columns
`modelparams_colnames = [lrgcm, lrglac, precfactor, precgrad, ddfsnow,
ddfice, tempsnow, tempchange]` (script line 94). -/
structure ModelParams where
  lrgcm : ℚ
  lrglac : ℚ
  precfactor : ℚ
  precgrad : ℚ
  ddfsnow : ℚ
  ddfice : ℚ
  tempsnow : ℚ
  tempchange : ℚ
  deriving DecidableEq

/-- One row of the bias-adjustment result table `main_glac_bias_adj`
(columns of line 187-189). -/
structure BiasAdjRow where
  rgiId : String
  refName : String
  gcmName : String
  rcpScenario : String
  temp_adj : ℚ
  prec_adj : ℚ
  ref_mb_mwea : ℚ
  ref_vol_change_perc : ℚ
  gcm_mb_mwea : ℚ
  gcm_vol_change_perc : ℚ
  params : ModelParams
  deriving DecidableEq

/-- Row initialisation (lines 190-196): the table is created as zeros and the
identity, reference label, GCM label, scenario and model parameters are filled
in; every numeric output column stays at 0. -/
def initRow (rid rn gn rcp : String) (mp : ModelParams) : BiasAdjRow :=
  { rgiId := rid, refName := rn, gcmName := gn, rcpScenario := rcp,
    temp_adj := 0, prec_adj := 0, ref_mb_mwea := 0, ref_vol_change_perc := 0,
    gcm_mb_mwea := 0, gcm_vol_change_perc := 0, params := mp }

/-- numpy `.max()` of a one-dimensional array (the arrays in the data are
nonempty; the `[]` case is a modelling default). -/
def npMax : List ℚ → ℚ
  | [] => 0
  | x :: xs => xs.foldl max x

/-- Per-glacier driver (lines 209-470): the whole bias-adjustment computation
runs only under `icethickness_t0.max() > 0`; otherwise the initialised row is
left untouched.  The positive branch (two-stage optimisation plus diagnostics)
is abstracted as `solveGlacier` because it calls the external optimizer and
mass-balance engine. -/
def processGlacier (solveGlacier : BiasAdjRow → BiasAdjRow)
    (icethickness : List ℚ) (row : BiasAdjRow) : BiasAdjRow :=
  if 0 < npMax icethickness then solveGlacier row else row

/-- Per-glacier inputs extracted in the loop body (lines 202-228):
geometry, reference climate and GCM climate series, and the model parameters
actually used by the downscaling.  `refLr` models both `glacier_ref_lrgcm`
and `glacier_ref_lrglac` (lines 221-222 assign both from the same row);
likewise `gcmLr` (lines 227-228). -/
structure GlacierData (nb nm : ℕ) where
  area : Fin nb → ℚ
  icethickness : Fin nb → ℚ
  elev : Fin nb → ℚ
  zref : ℚ
  refTemp : Fin nm → ℚ
  refPrec : Fin nm → ℚ
  refElev : ℚ
  refLr : Fin nm → ℚ
  gcmTemp : Fin nm → ℚ
  gcmPrec : Fin nm → ℚ
  gcmElev : ℚ
  gcmLr : Fin nm → ℚ
  precfactor : ℚ
  precgrad : ℚ
  tempsnow : ℚ
  tempchange : ℚ

/-- Temperature downscaling to elevation bins (option_temp2bins = 1,
lines 230-244): entry [bin, month] of the numpy broadcast
`T + lr_gcm*(z_ref - z_cen) + (lr_glac*(elev_bins - z_ref))[:,newaxis] + tempchange`. -/
def binTempField {nb nm : ℕ} (Tc lrgcm lrglac : Fin nm → ℚ) (zref zcent tempchange : ℚ)
    (elev : Fin nb → ℚ) : Fin nb → Fin nm → ℚ :=
  fun b m => Tc m + lrgcm m * (zref - zcent) + lrglac m * (elev b - zref) + tempchange

/-- The downscaling formula exactly as the specification words it:
`T[bin,month] = T_centroid[month] + lr_gcm[month]*(z_ref - z_centroid)
+ lr_glac[month]*(z_bin - z_ref) + temp_offset`. -/
def downscaledTempSpec {nb nm : ℕ} (Tc lrgcm lrglac : Fin nm → ℚ)
    (zref zcent toffset : ℚ) (zbin : Fin nb → ℚ) : Fin nb → Fin nm → ℚ :=
  fun b m => Tc m + lrgcm m * (zref - zcent) + lrglac m * (zbin b - zref) + toffset

/-- Precipitation downscaling (option_prec2bins = 1, lines 275-283):
`P * precfactor * (1 + precgrad * (elev_bins - z_ref))[:,newaxis]`. -/
def binPrecsnowField {nb nm : ℕ} (Pc : Fin nm → ℚ) (pf pg zref : ℚ)
    (elev : Fin nb → ℚ) : Fin nb → Fin nm → ℚ :=
  fun b m => Pc m * pf * (1 + pg * (elev b - zref))

/-- Off-glacier removal (lines 245-248 and 344-348): rows with zero initial
area are set to 0 across all months. -/
def maskZero {nb nm : ℕ} (area : Fin nb → ℚ) (A : Fin nb → Fin nm → ℚ) :
    Fin nb → Fin nm → ℚ :=
  fun b m => if area b = 0 then 0 else A b m

/-- `glac_idx_t0 = glacier_area_t0.nonzero()[0]` (line 207): indices of the
bins with nonzero initial area, in increasing order. -/
def glacIdxList {nb : ℕ} (area : Fin nb → ℚ) : List (Fin nb) :=
  (List.finRange nb).filter (fun b => decide (area b ≠ 0))

/-- Indices of the uppermost 25 % of on-glacier bins (line 289):
`glac_idx_t0[(glac_idx_t0 - glac_idx_t0[0] + 1) / glac_idx_t0.shape[0] * 100 > 75]`. -/
def upper25List {nb : ℕ} (area : Fin nb → ℚ) : List (Fin nb) :=
  match glacIdxList area with
  | [] => []
  | i0 :: rest =>
      (i0 :: rest).filter
        (fun i => decide ((((i : ℕ) : ℚ) - ((i0 : ℕ) : ℚ) + 1) /
          (((i0 :: rest).length : ℕ) : ℚ) * 100 > 75))

/-- numpy `.max()` of the entries of column `m` of `v` selected by the index
list `g` (as in `glac_bin_precsnow_ref[glac_idx_t0,month].max()`). -/
def colMaxOn {nb nm : ℕ} (v : Fin nb → Fin nm → ℚ) (g : List (Fin nb))
    (m : Fin nm) : ℚ :=
  match g with
  | [] => 0
  | i :: rest => rest.foldl (fun acc j => max acc (v j m)) (v i m)

/-- Exponential decay of the upper-quartile precipitation (lines 292-299):
rows in `u` are replaced by the first upper-quartile row scaled by
`exp(-1*(elev_i - elev_u0)/(elev_ulast - elev_u0))`; the right-hand side is
read from the array state before the assignment. -/
def decayUpper {nb nm : ℕ} (expf : ℚ → ℚ) (elev : Fin nb → ℚ)
    (u : List (Fin nb)) (v : Fin nb → Fin nm → ℚ) : Fin nb → Fin nm → ℚ :=
  fun b m =>
    if b ∈ u then
      v (u.headD b) m *
        expf (-1 * (elev b - elev (u.headD b)) / (elev (u.getLastD b) - elev (u.headD b)))
    else v b m

/-- Floor of the upper-quartile precipitation (lines 300-309): for each month,
upper-quartile entries that are below 87.5 % of the maximum over the
on-glacier bins AND are nonzero are raised to that floor.  Mask and
replacement value both use the array state at the start of the month's
statement; months are independent columns. -/
def floorUpper {nb nm : ℕ} (g u : List (Fin nb)) (v : Fin nb → Fin nm → ℚ) :
    Fin nb → Fin nm → ℚ :=
  fun b m =>
    if b ∈ u ∧ v b m < 0.875 * colMaxOn v g m ∧ v b m ≠ 0 then
      0.875 * colMaxOn v g m
    else v b m

/-- Guard of the upper-elevation precipitation limiting (line 287):
`elev_bins[glac_idx_t0[-1]] - elev_bins[glac_idx_t0[0]] > 1000`
(`false` when no bin has area, where the script itself would fail). -/
def preclimitActiveB {nb : ℕ} (elev : Fin nb → ℚ) (area : Fin nb → ℚ) : Bool :=
  match glacIdxList area with
  | [] => false
  | i0 :: rest =>
      decide (1000 < elev ((i0 :: rest).getLast (List.cons_ne_nil i0 rest)) - elev i0)

/-- The upper-elevation precipitation-limiting step (option_preclimit = 1,
lines 285-309): when the on-glacier elevation range exceeds 1000 m, apply the
exponential decay and then the 87.5 % floor to the upper-quartile bins. -/
def preclimitApply {nb nm : ℕ} (expf : ℚ → ℚ) (elev area : Fin nb → ℚ)
    (v : Fin nb → Fin nm → ℚ) : Fin nb → Fin nm → ℚ :=
  if preclimitActiveB elev area = true then
    floorUpper (glacIdxList area) (upper25List area)
      (decayUpper expf elev (upper25List area) v)
  else v

/-- Liquid precipitation from total precipitation (option_accumulation = 2,
lines 322-343): linear ramp `(1/2 + (T - tempsnow)/2) * precsnow`, overridden
to all rain above `tempsnow + 1` and to no rain at or below `tempsnow - 1`. -/
def precFromSnow {nb nm : ℕ} (ts : ℚ) (T precsnow : Fin nb → Fin nm → ℚ) :
    Fin nb → Fin nm → ℚ :=
  fun b m =>
    if ts + 1 < T b m then precsnow b m
    else if T b m ≤ ts - 1 then 0
    else (1 / 2 + (T b m - ts) / 2) * precsnow b m

/-- Solid accumulation from total precipitation (option_accumulation = 2,
lines 322-343): `precsnow - prec`, overridden to 0 above `tempsnow + 1` and to
all snow at or below `tempsnow - 1`. -/
def accFromSnow {nb nm : ℕ} (ts : ℚ) (T precsnow : Fin nb → Fin nm → ℚ) :
    Fin nb → Fin nm → ℚ :=
  fun b m =>
    if ts + 1 < T b m then 0
    else if T b m ≤ ts - 1 then precsnow b m
    else precsnow b m - (1 / 2 + (T b m - ts) / 2) * precsnow b m

/-- `glac_bin_temp_ref` before the off-glacier removal (lines 233-238). -/
def glacBinTempRefRaw {nb nm : ℕ} (g : GlacierData nb nm) : Fin nb → Fin nm → ℚ :=
  binTempField g.refTemp g.refLr g.refLr g.zref g.refElev g.tempchange g.elev

/-- `glac_bin_temp_gcm` before the off-glacier removal (lines 239-244). -/
def glacBinTempGcmRaw {nb nm : ℕ} (g : GlacierData nb nm) : Fin nb → Fin nm → ℚ :=
  binTempField g.gcmTemp g.gcmLr g.gcmLr g.zref g.gcmElev g.tempchange g.elev

/-- `glac_bin_temp_ref` after the off-glacier removal (line 246). -/
def glacBinTempRef {nb nm : ℕ} (g : GlacierData nb nm) : Fin nb → Fin nm → ℚ :=
  maskZero g.area (glacBinTempRefRaw g)

/-- `glac_bin_temp_gcm` after the off-glacier removal (line 247). -/
def glacBinTempGcm {nb nm : ℕ} (g : GlacierData nb nm) : Fin nb → Fin nm → ℚ :=
  maskZero g.area (glacBinTempGcmRaw g)

/-- `glac_bin_temp_gcm_adj = glac_bin_temp_gcm + bias_adj_temp_init`
(line 269), where `badj` is the stage-1 optimizer result. -/
def glacBinTempGcmAdj {nb nm : ℕ} (g : GlacierData nb nm) (badj : ℚ) :
    Fin nb → Fin nm → ℚ :=
  fun b m => glacBinTempGcm g b m + badj

/-- `glac_bin_precsnow_ref` after the limiting step (lines 278-280, 285-309). -/
def glacBinPrecsnowRef {nb nm : ℕ} (expf : ℚ → ℚ) (g : GlacierData nb nm) :
    Fin nb → Fin nm → ℚ :=
  preclimitApply expf g.elev g.area
    (binPrecsnowField g.refPrec g.precfactor g.precgrad g.zref g.elev)

/-- `glac_bin_precsnow_gcm` after the limiting step (lines 281-283, 285-309). -/
def glacBinPrecsnowGcm {nb nm : ℕ} (expf : ℚ → ℚ) (g : GlacierData nb nm) :
    Fin nb → Fin nm → ℚ :=
  preclimitApply expf g.elev g.area
    (binPrecsnowField g.gcmPrec g.precfactor g.precgrad g.zref g.elev)

/-- `glac_bin_prec_ref` after the off-glacier removal (lines 324-343, 347). -/
def glacBinPrecRef {nb nm : ℕ} (expf : ℚ → ℚ) (g : GlacierData nb nm) :
    Fin nb → Fin nm → ℚ :=
  maskZero g.area (precFromSnow g.tempsnow (glacBinTempRef g) (glacBinPrecsnowRef expf g))

/-- `glac_bin_acc_ref` after the off-glacier removal (lines 324-343, 345). -/
def glacBinAccRef {nb nm : ℕ} (expf : ℚ → ℚ) (g : GlacierData nb nm) :
    Fin nb → Fin nm → ℚ :=
  maskZero g.area (accFromSnow g.tempsnow (glacBinTempRef g) (glacBinPrecsnowRef expf g))

/-- `glac_bin_prec_gcm` after the off-glacier removal (lines 324-343, 348);
the GCM partition uses the stage-1-adjusted temperature (lines 326-327). -/
def glacBinPrecGcm {nb nm : ℕ} (expf : ℚ → ℚ) (g : GlacierData nb nm) (badj : ℚ) :
    Fin nb → Fin nm → ℚ :=
  maskZero g.area
    (precFromSnow g.tempsnow (glacBinTempGcmAdj g badj) (glacBinPrecsnowGcm expf g))

/-- `glac_bin_acc_gcm` after the off-glacier removal (lines 324-343, 346). -/
def glacBinAccGcm {nb nm : ℕ} (expf : ℚ → ℚ) (g : GlacierData nb nm) (badj : ℚ) :
    Fin nb → Fin nm → ℚ :=
  maskZero g.area
    (accFromSnow g.tempsnow (glacBinTempGcmAdj g badj) (glacBinPrecsnowGcm expf g))

/-- Area-weighted reference accumulation total
`(glac_bin_acc_ref * glacier_area_t0[:,newaxis]).sum()` (lines 350, 353). -/
def accSumRef {nb nm : ℕ} (expf : ℚ → ℚ) (g : GlacierData nb nm) : ℚ :=
  ∑ b, ∑ m, glacBinAccRef expf g b m * g.area b

/-- Area-weighted GCM accumulation total
`(glac_bin_acc_gcm * glacier_area_t0[:,newaxis]).sum()` (lines 351, 353). -/
def accSumGcm {nb nm : ℕ} (expf : ℚ → ℚ) (g : GlacierData nb nm) (badj : ℚ) : ℚ :=
  ∑ b, ∑ m, glacBinAccGcm expf g badj b m * g.area b

/-- Stage-1b precipitation seed
`bias_adj_prec_init = acc_ref_warea.sum() / acc_gcm_warea.sum()` (line 353),
as a total function: the unguarded division is given an explicit error branch
for a zero denominator. -/
def biasAdjPrecInit {nb nm : ℕ} (expf : ℚ → ℚ) (g : GlacierData nb nm)
    (badj : ℚ) : Option ℚ :=
  if accSumGcm expf g badj = 0 then none
  else some (accSumRef expf g / accSumGcm expf g badj)

/-- Total melt volume of a binned temperature field (lines 249-255):
melt energy `T * daysinmonth` clamped at 0, multiplied by the per-bin
degree-day factor and the per-bin area, summed over all bins and months. -/
def meltVolTotal {nb nm : ℕ} (T : Fin nb → Fin nm → ℚ) (d : Fin nm → ℚ)
    (ddf a : Fin nb → ℚ) : ℚ :=
  ∑ b, ∑ m, max (T b m * d m) 0 * ddf b * a b

/-- The melt total exactly as the specification words it:
`max(T,0) * days_in_month` per bin-month, times the degree-day factor, times
the bin area, summed over all bins and months. -/
def meltVolSpecSum {nb nm : ℕ} (T : Fin nb → Fin nm → ℚ) (d : Fin nm → ℚ)
    (ddf a : Fin nb → ℚ) : ℚ :=
  ∑ b, ∑ m, max (T b m) 0 * d m * ddf b * a b

/-- The GCM melt volume computed inside the stage-1 `objective`
(lines 257-262): the offset is added to the binned GCM temperature and the
same melt pipeline is applied. -/
def meltVolGcmAdj {nb nm : ℕ} (T : Fin nb → Fin nm → ℚ) (d : Fin nm → ℚ)
    (ddf a : Fin nb → ℚ) (badj : ℚ) : ℚ :=
  meltVolTotal (fun b m => T b m + badj) d ddf a

/-- The stage-1 objective (line 263): `abs(melt_vol_ref - melt_vol_gcm)`. -/
def stage1Objective {nb nm : ℕ} (meltVolRef : ℚ) (T : Fin nb → Fin nm → ℚ)
    (d : Fin nm → ℚ) (ddf a : Fin nb → ℚ) (badj : ℚ) : ℚ :=
  |meltVolRef - meltVolGcmAdj T d ddf a badj|

/-- Stage-2 constraint function (lines 399-400):
`-1 * (bias_adj_params[0] * (bias_adj_params[1] - 1))`. -/
def constraint_temp_prec (p : ℚ × ℚ) : ℚ :=
  -1 * (p.1 * (p.2 - 1))

/-- Feasibility of a stage-2 parameter pair: the constraint is registered as
`{'type':'ineq', 'fun':constraint_temp_prec}` (lines 406-410), and an SLSQP
inequality constraint means the function value is nonnegative. -/
def stage2Feasible (p : ℚ × ℚ) : Prop :=
  0 ≤ constraint_temp_prec p

/-- The merge of chunk result tables (lines 538-550): the first file found
becomes the accumulator and every further file is appended. -/
def mergeChunks {α : Type} (chunks : List (List α)) : List α :=
  match chunks with
  | [] => []
  | c :: rest => rest.foldl (fun acc cs => acc ++ cs) c

/-- `a` starts the character list `l` (model of python `str.startswith`). -/
def listStarts : List Char → List Char → Bool
  | [], _ => true
  | _ :: _, [] => false
  | a :: as, b :: bs => a == b && listStarts as bs

/-- python `s.startswith(pre)`. -/
def strStarts (pre s : String) : Bool :=
  listStarts pre.data s.data

/-- A lapse-rate table: rows of monthly-climatology values as written by
`np.savetxt` and read back by `np.genfromtxt`. -/
abbrev LrTable := List (List ℚ)

/-- The output directory as a name-to-contents store (only the lapse-rate
files matter to the claims modelled here). -/
abbrev FileSys := List (String × LrTable)

/-- Contents of a file, if present. -/
def fsLookup (fs : FileSys) (fn : String) : Option LrTable :=
  (fs.find? (fun p => p.1 == fn)).map (fun p => p.2)

/-- Write (create or overwrite) a file. -/
def fsWrite (fs : FileSys) (fn : String) (t : LrTable) : FileSys :=
  (fn, t) :: fs.filter (fun p => p.1 != fn)

/-- The chunk lapse-rate filename for chunk 0 (lines 484-485):
`'biasadj_mon_lravg_' + '1995' + '_' + '2015' + '_' + '0' + '.csv'`. -/
def lrChunkFn0 : String := "biasadj_mon_lravg_1995_2015_0.csv"

/-- The merged lapse-rate filename (lines 569-570):
`'biasadj_mon_lravg_' + '1995' + '_' + '2015' + '_' + strftime + '.csv'`. -/
def lrMergedFn : String := "biasadj_mon_lravg_1995_2015_20181012.csv"

/-- `output_lr_prefix = 'biasadj_mon_lravg_'` (line 537). -/
def lrScanPre : String := "biasadj_mon_lravg_"

/-- Worker-side lapse-rate export (lines 483-487, single chunk): write the
chunk lapse-rate file only if it does not exist yet. -/
def workerLrWrite (lrMonthlyAvg : LrTable) (fs : FileSys) : FileSys :=
  if (fsLookup fs lrChunkFn0).isSome then fs
  else fsWrite fs lrChunkFn0 lrMonthlyAvg

/-- Merge-side lapse-rate handling (lines 551-562 and 568-572): every file
whose name starts with `output_lr_prefix` is read and deleted, the contents
are stacked, and the merged lapse-rate file is written if it does not exist
after those deletions. -/
def mergeLrStep (fs : FileSys) : FileSys :=
  let found := fs.filter (fun p => strStarts lrScanPre p.1)
  let lrAll := (found.map (fun p => p.2)).flatten
  let fs2 := fs.filter (fun p => !(strStarts lrScanPre p.1))
  if (fsLookup fs2 lrMergedFn).isSome then fs2
  else fsWrite fs2 lrMergedFn lrAll

/-- One sequential GCM round as far as the lapse-rate files are concerned
(serial run, one chunk): the worker export followed by the merge. -/
def gcmRoundLr (lrMonthlyAvg : LrTable) (fs : FileSys) : FileSys :=
  mergeLrStep (workerLrWrite lrMonthlyAvg fs)

/-- A concrete monthly-climatology table for two glaciers (columns
abbreviated to two months; the width is irrelevant to the file protocol). -/
def lrDemo : LrTable := [[1, 2], [3, 4]]

/-- A trivial positive stand-in for the external exponential, used to
instantiate concrete inputs whose conclusions do not depend on the
exponential's values. -/
def expfOne : ℚ → ℚ := fun _ => 1

/-- Concrete elevation bins for the precipitation-limiting examples:
eight bins spanning 0-1400 m (range 1400 m > 1000 m). -/
def elevC7 : Fin 8 → ℚ := ![0, 200, 400, 600, 800, 1000, 1200, 1400]

/-- Concrete bin areas for the precipitation-limiting examples: every bin is
on-glacier. -/
def areaC7 : Fin 8 → ℚ := fun _ => 1

/-- Concrete downscaled total precipitation: centroid precipitation 1,
precipitation factor 1, precipitation gradient -1/500, reference elevation
700 m.  Bin 6 (1200 m) gets `1 + (-1/500)*(1200-700) = 0`. -/
def precsnowC7 : Fin 8 → Fin 1 → ℚ :=
  binPrecsnowField (fun _ => 1) 1 (-1 / 500) 700 elevC7

/-- Concrete single-bin glacier whose GCM temperatures all exceed the rain
threshold by more than 1 degree, so its GCM accumulation is zero everywhere
while its ice thickness is positive. -/
def gC10 : GlacierData 1 1 where
  area := fun _ => 1
  icethickness := fun _ => 5
  elev := fun _ => 100
  zref := 100
  refTemp := fun _ => -10
  refPrec := fun _ => 2
  refElev := 100
  refLr := fun _ => 0
  gcmTemp := fun _ => 10
  gcmPrec := fun _ => 3
  gcmElev := 100
  gcmLr := fun _ => 0
  precfactor := 1
  precgrad := 0
  tempsnow := 1
  tempchange := 0

/-- Concrete single-bin glacier whose only bin has zero area. -/
def gC6 : GlacierData 1 1 where
  area := fun _ => 0
  icethickness := fun _ => 1
  elev := fun _ => 100
  zref := 110
  refTemp := fun _ => 5
  refPrec := fun _ => 2
  refElev := 90
  refLr := fun _ => -1 / 200
  gcmTemp := fun _ => 7
  gcmPrec := fun _ => 3
  gcmElev := 80
  gcmLr := fun _ => -1 / 200
  precfactor := 1
  precgrad := 1 / 1000
  tempsnow := 1
  tempchange := 2

/-- Concrete binned temperatures for the melt examples. -/
def tC3 : Fin 2 → Fin 2 → ℚ := ![![3, -2], ![-1, 4]]

/-- Concrete days-per-month for the melt examples. -/
def dC3 : Fin 2 → ℚ := ![31, 28]

/-- Concrete per-bin degree-day factors for the melt examples. -/
def ddfC3 : Fin 2 → ℚ := ![2, 5]

/-- Concrete per-bin areas for the melt examples. -/
def aC3 : Fin 2 → ℚ := ![1, 3]

/-- Folding list append from an accumulator concatenates. -/
theorem foldl_append_flatten {α : Type} (l : List (List α)) (acc : List α) :
    l.foldl (fun a c => a ++ c) acc = acc ++ l.flatten := by
  induction l generalizing acc with
  | nil => simp
  | cons c rest ih => simp [ih, List.append_assoc]

/-- The chunk merge concatenates the chunk tables in order. -/
theorem mergeChunks_eq_flatten {α : Type} (chunks : List (List α)) :
    mergeChunks chunks = chunks.flatten := by
  cases chunks with
  | nil => rfl
  | cons c rest => simp [mergeChunks, foldl_append_flatten]

/-- Occurrence counts distribute over concatenation of the chunk tables. -/
theorem count_flatten_sum {α : Type} [DecidableEq α] (l : List (List α)) (a : α) :
    l.flatten.count a = (l.map (fun c => c.count a)).sum := by
  induction l with
  | nil => rfl
  | cons c rest ih => simp [List.count_append, ih]

/-- After the per-month floor (lines 300-309), every upper-quartile entry is
either exactly zero or at least the 87.5 % floor computed from the pre-floor
state. -/
theorem floorUpper_bound {nb nm : ℕ} (g u : List (Fin nb))
    (v : Fin nb → Fin nm → ℚ) (b : Fin nb) (m : Fin nm) (hb : b ∈ u) :
    floorUpper g u v b m = 0 ∨
      0.875 * colMaxOn v g m ≤ floorUpper g u v b m := by
  unfold floorUpper
  by_cases h2 : v b m = 0
  · left
    have hmask : ¬ (b ∈ u ∧ v b m < 0.875 * colMaxOn v g m ∧ v b m ≠ 0) := by
      intro h
      exact h.2.2 h2
    rw [if_neg hmask, h2]
  · right
    by_cases h1 : v b m < 0.875 * colMaxOn v g m
    · rw [if_pos ⟨hb, h1, h2⟩]
    · have hmask : ¬ (b ∈ u ∧ v b m < 0.875 * colMaxOn v g m ∧ v b m ≠ 0) := by
        intro h
        exact h1 h.2.1
      rw [if_neg hmask]
      exact le_of_not_lt h1

/-- Claim C1: the stage-2 constraint function returns
`-(temp_adj * (prec_adj - 1))` and, registered as a `>= 0` inequality, it
declares a pair feasible exactly when `temp_adj * (prec_adj - 1) ≤ 0`
(a temperature increase is never compensated by a precipitation increase,
and vice versa). -/
theorem constraint_feasibility (t p : ℚ) :
    constraint_temp_prec (t, p) = -(t * (p - 1)) ∧
      (stage2Feasible (t, p) ↔ t * (p - 1) ≤ 0) := by
  constructor
  · simp [constraint_temp_prec]
  · simp [stage2Feasible, constraint_temp_prec, neg_nonneg]

/-- Claim C2: a glacier whose per-bin ice-thickness array has maximum 0 skips
the entire bias-adjustment computation; its row stays the initialised row,
whose `temp_adj`, `prec_adj` and diagnostic mass-balance fields are the
default zeros while identity, labels, scenario and model parameters are
filled in. -/
theorem zero_ice_skip (solveGlacier : BiasAdjRow → BiasAdjRow) (ice : List ℚ)
    (rid rn gn rcp : String) (mp : ModelParams) (h : npMax ice = 0) :
    processGlacier solveGlacier ice (initRow rid rn gn rcp mp) = initRow rid rn gn rcp mp ∧
    (initRow rid rn gn rcp mp).temp_adj = 0 ∧
    (initRow rid rn gn rcp mp).prec_adj = 0 ∧
    (initRow rid rn gn rcp mp).ref_mb_mwea = 0 ∧
    (initRow rid rn gn rcp mp).ref_vol_change_perc = 0 ∧
    (initRow rid rn gn rcp mp).gcm_mb_mwea = 0 ∧
    (initRow rid rn gn rcp mp).gcm_vol_change_perc = 0 ∧
    (initRow rid rn gn rcp mp).rgiId = rid ∧
    (initRow rid rn gn rcp mp).refName = rn ∧
    (initRow rid rn gn rcp mp).gcmName = gn ∧
    (initRow rid rn gn rcp mp).rcpScenario = rcp ∧
    (initRow rid rn gn rcp mp).params = mp := by
  have hn : ¬ 0 < npMax ice := by
    rw [h]
    exact lt_irrefl 0
  refine ⟨?_, rfl, rfl, rfl, rfl, rfl, rfl, rfl, rfl, rfl, rfl, rfl⟩
  simp [processGlacier, hn]

/-- Witness for C2 at a concrete skipped glacier: the solver branch would
overwrite the parameters, yet the row keeps its defaults. -/
theorem zero_ice_skip_witness :
    npMax [0, 0, 0] = 0 ∧
    (processGlacier (fun r => { r with temp_adj := 9, prec_adj := 9 }) [0, 0, 0]
        (initRow "RGI60-15.03473" "ERA-Interim" "CanESM2" "rcp26"
          ⟨1, 1, 2, 3, 4, 5, 1, 0⟩) =
      initRow "RGI60-15.03473" "ERA-Interim" "CanESM2" "rcp26" ⟨1, 1, 2, 3, 4, 5, 1, 0⟩ ∧
    (initRow "RGI60-15.03473" "ERA-Interim" "CanESM2" "rcp26"
        ⟨1, 1, 2, 3, 4, 5, 1, 0⟩).temp_adj = 0 ∧
    (initRow "RGI60-15.03473" "ERA-Interim" "CanESM2" "rcp26"
        ⟨1, 1, 2, 3, 4, 5, 1, 0⟩).prec_adj = 0 ∧
    (initRow "RGI60-15.03473" "ERA-Interim" "CanESM2" "rcp26"
        ⟨1, 1, 2, 3, 4, 5, 1, 0⟩).ref_mb_mwea = 0 ∧
    (initRow "RGI60-15.03473" "ERA-Interim" "CanESM2" "rcp26"
        ⟨1, 1, 2, 3, 4, 5, 1, 0⟩).ref_vol_change_perc = 0 ∧
    (initRow "RGI60-15.03473" "ERA-Interim" "CanESM2" "rcp26"
        ⟨1, 1, 2, 3, 4, 5, 1, 0⟩).gcm_mb_mwea = 0 ∧
    (initRow "RGI60-15.03473" "ERA-Interim" "CanESM2" "rcp26"
        ⟨1, 1, 2, 3, 4, 5, 1, 0⟩).gcm_vol_change_perc = 0 ∧
    (initRow "RGI60-15.03473" "ERA-Interim" "CanESM2" "rcp26"
        ⟨1, 1, 2, 3, 4, 5, 1, 0⟩).rgiId = "RGI60-15.03473" ∧
    (initRow "RGI60-15.03473" "ERA-Interim" "CanESM2" "rcp26"
        ⟨1, 1, 2, 3, 4, 5, 1, 0⟩).refName = "ERA-Interim" ∧
    (initRow "RGI60-15.03473" "ERA-Interim" "CanESM2" "rcp26"
        ⟨1, 1, 2, 3, 4, 5, 1, 0⟩).gcmName = "CanESM2" ∧
    (initRow "RGI60-15.03473" "ERA-Interim" "CanESM2" "rcp26"
        ⟨1, 1, 2, 3, 4, 5, 1, 0⟩).rcpScenario = "rcp26" ∧
    (initRow "RGI60-15.03473" "ERA-Interim" "CanESM2" "rcp26"
        ⟨1, 1, 2, 3, 4, 5, 1, 0⟩).params = ⟨1, 1, 2, 3, 4, 5, 1, 0⟩) :=
  ⟨by with_unfolding_all decide,
    zero_ice_skip (fun r => { r with temp_adj := 9, prec_adj := 9 }) [0, 0, 0]
      "RGI60-15.03473" "ERA-Interim" "CanESM2" "rcp26" ⟨1, 1, 2, 3, 4, 5, 1, 0⟩
      (by with_unfolding_all decide)⟩

/-- Claim C3: with nonnegative days-per-month, the computed total melt volume
equals the spec's `max(T,0) * days * ddf * area` summed over bins and months:
the code's clamping of `T*days` at zero coincides with `max(T,0)*days`. -/
theorem melt_vol_matches_spec {nb nm : ℕ} (T : Fin nb → Fin nm → ℚ)
    (d : Fin nm → ℚ) (ddf a : Fin nb → ℚ) (hd : ∀ m, 0 ≤ d m) :
    meltVolTotal T d ddf a = meltVolSpecSum T d ddf a := by
  unfold meltVolTotal meltVolSpecSum
  refine Finset.sum_congr rfl fun b _ => Finset.sum_congr rfl fun m _ => ?_
  have h : max (T b m) 0 * d m = max (T b m * d m) 0 := by
    rw [max_mul_of_nonneg _ _ (hd m), zero_mul]
  rw [← h]

/-- Witness for C3 at concrete fields with mixed-sign temperatures. -/
theorem melt_vol_matches_spec_witness :
    (∀ m : Fin 2, 0 ≤ dC3 m) ∧
      meltVolTotal tC3 dC3 ddfC3 aC3 = meltVolSpecSum tC3 dC3 ddfC3 aC3 :=
  ⟨by with_unfolding_all decide,
    melt_vol_matches_spec tC3 dC3 ddfC3 aC3 (by with_unfolding_all decide)⟩

/-- Claim C4: with nonnegative degree-day factors, areas and days-per-month,
the GCM melt volume inside the stage-1 objective is monotonically
nondecreasing in the temperature offset. -/
theorem melt_vol_gcm_monotone {nb nm : ℕ} (T : Fin nb → Fin nm → ℚ)
    (d : Fin nm → ℚ) (ddf a : Fin nb → ℚ) (hd : ∀ m, 0 ≤ d m)
    (hddf : ∀ b, 0 ≤ ddf b) (ha : ∀ b, 0 ≤ a b) (x y : ℚ) (hxy : x ≤ y) :
    meltVolGcmAdj T d ddf a x ≤ meltVolGcmAdj T d ddf a y := by
  unfold meltVolGcmAdj meltVolTotal
  refine Finset.sum_le_sum fun b _ => Finset.sum_le_sum fun m _ => ?_
  have h1 : (T b m + x) * d m ≤ (T b m + y) * d m :=
    mul_le_mul_of_nonneg_right (by linarith) (hd m)
  have h2 : max ((T b m + x) * d m) 0 ≤ max ((T b m + y) * d m) 0 :=
    max_le_max h1 le_rfl
  exact mul_le_mul_of_nonneg_right (mul_le_mul_of_nonneg_right h2 (hddf b)) (ha b)

/-- Witness for C4 at concrete fields and offsets 0 ≤ 2. -/
theorem melt_vol_gcm_monotone_witness :
    (∀ m : Fin 2, 0 ≤ dC3 m) ∧ (∀ b : Fin 2, 0 ≤ ddfC3 b) ∧
      (∀ b : Fin 2, 0 ≤ aC3 b) ∧ (0 : ℚ) ≤ 2 ∧
      meltVolGcmAdj tC3 dC3 ddfC3 aC3 0 ≤ meltVolGcmAdj tC3 dC3 ddfC3 aC3 2 :=
  ⟨by with_unfolding_all decide, by with_unfolding_all decide,
    by with_unfolding_all decide, by with_unfolding_all decide,
    melt_vol_gcm_monotone tC3 dC3 ddfC3 aC3 (by with_unfolding_all decide)
      (by with_unfolding_all decide) (by with_unfolding_all decide) 0 2
      (by with_unfolding_all decide)⟩

/-- Claim C5: for every glacier, bin and month, the downscaled temperature
(both the reference and the GCM series, before the off-glacier removal)
equals `T_centroid + lr_gcm*(z_ref - z_centroid) + lr_glac*(z_bin - z_ref)
+ temp_offset`, with the glacier's calibrated `tempchange` as offset. -/
theorem downscaled_temp_formula {nb nm : ℕ} (g : GlacierData nb nm)
    (b : Fin nb) (m : Fin nm) :
    glacBinTempRefRaw g b m =
      downscaledTempSpec g.refTemp g.refLr g.refLr g.zref g.refElev g.tempchange g.elev b m ∧
    glacBinTempGcmRaw g b m =
      downscaledTempSpec g.gcmTemp g.gcmLr g.gcmLr g.zref g.gcmElev g.tempchange g.elev b m :=
  ⟨rfl, rfl⟩

/-- Claim C6: every zero-area bin ends with exactly zero binned temperature,
rain and accumulation, for both the reference and the GCM series, for every
month, whatever the upstream climate values, lapse rates, limiting step or
stage-1 offset. -/
theorem offglacier_fields_zero {nb nm : ℕ} (expf : ℚ → ℚ) (g : GlacierData nb nm)
    (badj : ℚ) (b : Fin nb) (m : Fin nm) (hb : g.area b = 0) :
    glacBinTempRef g b m = 0 ∧ glacBinTempGcm g b m = 0 ∧
    glacBinPrecRef expf g b m = 0 ∧ glacBinPrecGcm expf g badj b m = 0 ∧
    glacBinAccRef expf g b m = 0 ∧ glacBinAccGcm expf g badj b m = 0 := by
  refine ⟨?_, ?_, ?_, ?_, ?_, ?_⟩ <;>
    simp [glacBinTempRef, glacBinTempGcm, glacBinPrecRef, glacBinPrecGcm,
      glacBinAccRef, glacBinAccGcm, maskZero, hb]

/-- Witness for C6 at a concrete glacier whose only bin has zero area. -/
theorem offglacier_fields_zero_witness :
    gC6.area 0 = 0 ∧
      (glacBinTempRef gC6 0 0 = 0 ∧ glacBinTempGcm gC6 0 0 = 0 ∧
        glacBinPrecRef expfOne gC6 0 0 = 0 ∧ glacBinPrecGcm expfOne gC6 2 0 0 = 0 ∧
        glacBinAccRef expfOne gC6 0 0 = 0 ∧ glacBinAccGcm expfOne gC6 2 0 0 = 0) :=
  ⟨rfl, offglacier_fields_zero expfOne gC6 2 0 0 rfl⟩

/-- Counterexample to claim C7 as stated: a glacier with 1400 m of elevation
range whose 75th-percentile bin has zero total precipitation in a month.  The
decayed upper-quartile values are all zero, the `!= 0` mask exempts them from
the floor, and they end below 87.5 % of the glacier-wide maximum — whether
that maximum is read after the floor or from the pre-floor (post-decay)
state. -/
theorem upper_quartile_floor_cex :
    preclimitActiveB elevC7 areaC7 = true ∧
    (6 : Fin 8) ∈ upper25List areaC7 ∧
    preclimitApply expfOne elevC7 areaC7 precsnowC7 6 0 <
      0.875 * colMaxOn (preclimitApply expfOne elevC7 areaC7 precsnowC7) (glacIdxList areaC7) 0 ∧
    preclimitApply expfOne elevC7 areaC7 precsnowC7 6 0 <
      0.875 * colMaxOn (decayUpper expfOne elevC7 (upper25List areaC7) precsnowC7) (glacIdxList areaC7) 0 := by
  refine ⟨?_, ?_, ?_, ?_⟩ <;> with_unfolding_all decide

/-- Claim C7 (amended): for every glacier passing the 1000 m elevation-range
guard, after the precipitation-limiting step every upper-quartile bin's value
for every month is either exactly zero (zero entries are exempt from the
floor by the `!= 0` mask) or at least 87.5 % of the maximum post-decay
precipitation over all nonzero-area bins for that month. -/
theorem upper_quartile_floor_amended {nb nm : ℕ} (expf : ℚ → ℚ)
    (elev area : Fin nb → ℚ) (v : Fin nb → Fin nm → ℚ) (b : Fin nb) (m : Fin nm)
    (hact : preclimitActiveB elev area = true) (hb : b ∈ upper25List area) :
    preclimitApply expf elev area v b m = 0 ∨
      0.875 * colMaxOn (decayUpper expf elev (upper25List area) v) (glacIdxList area) m ≤
        preclimitApply expf elev area v b m := by
  unfold preclimitApply
  rw [if_pos hact]
  exact floorUpper_bound _ _ _ _ _ hb

/-- Witness for the amended C7 at the concrete 1400 m-range glacier. -/
theorem upper_quartile_floor_amended_witness :
    preclimitActiveB elevC7 areaC7 = true ∧
      (preclimitApply expfOne elevC7 areaC7 precsnowC7 6 0 = 0 ∨
        0.875 * colMaxOn (decayUpper expfOne elevC7 (upper25List areaC7) precsnowC7) (glacIdxList areaC7) 0 ≤
          preclimitApply expfOne elevC7 areaC7 precsnowC7 6 0) :=
  ⟨by with_unfolding_all decide,
    upper_quartile_floor_amended expfOne elevC7 areaC7 precsnowC7 6 0
      (by with_unfolding_all decide) (by with_unfolding_all decide)⟩

/-- Claim C8: merging any N ≥ 1 chunk tables yields a table whose row count
is the sum of the input row counts, and every glacier identity occurs exactly
as often as in the inputs (none duplicated, none lost); N = 1 is included. -/
theorem merge_preserves_rows {α : Type} [DecidableEq α]
    (chunks : List (List α)) (id : α) (h : chunks ≠ []) :
    (mergeChunks chunks).length = (chunks.map List.length).sum ∧
      (mergeChunks chunks).count id = (chunks.map (fun c => c.count id)).sum := by
  constructor
  · rw [mergeChunks_eq_flatten, List.length_flatten]
  · rw [mergeChunks_eq_flatten, count_flatten_sum]

/-- Witness for C8 with a single chunk holding the whole population. -/
theorem merge_preserves_rows_witness :
    ([["g1", "g2"]] : List (List String)) ≠ [] ∧
      ((mergeChunks [["g1", "g2"]]).length = ([["g1", "g2"]].map List.length).sum ∧
        (mergeChunks [["g1", "g2"]]).count "g1" =
          ([["g1", "g2"]].map (fun c => c.count "g1")).sum) :=
  ⟨by with_unfolding_all decide,
    merge_preserves_rows [["g1", "g2"]] "g1" (by with_unfolding_all decide)⟩

/-- Evidence against claim C9 on the code: after the first GCM round the
merged lapse-rate file holds the climatology, but the second GCM's merge scan
matches that file by its `biasadj_mon_lravg_` name, reads it, deletes it, and
rewrites it with the re-exported chunk rows stacked on top — the artifact is
written again and its contents change. -/
theorem lr_file_rewritten :
    fsLookup (gcmRoundLr lrDemo []) lrMergedFn = some lrDemo ∧
      fsLookup (gcmRoundLr lrDemo (gcmRoundLr lrDemo [])) lrMergedFn =
        some (lrDemo ++ lrDemo) := by
  refine ⟨?_, ?_⟩ <;> with_unfolding_all decide

/-- Claim C10: the stage-1b precipitation seed divides by the area-weighted
GCM accumulation with no guard; at a concrete glacier with positive maximum
ice thickness whose adjusted GCM temperatures all sit above the rain
threshold, the denominator is zero and the guarded division's error branch is
reached. -/
theorem prec_seed_zero_denominator :
    0 < npMax (List.ofFn gC10.icethickness) ∧
      accSumGcm expfOne gC10 0 = 0 ∧
      biasAdjPrecInit expfOne gC10 0 = none := by
  refine ⟨?_, ?_, ?_⟩ <;> with_unfolding_all decide

end PyGEM

